import Mathlib

/-! Listings marketplace: request handlers and validation schemas.

A shallow embedding of `controllers/listings.js` and `schema.js`.

* A handler is a function from the repository behaviour, the stored listings and
  the request to an `Outcome`: the ordered trace of the calls it makes on the
  repository (`Listing.*`), on `req.flash` and on `res`, the stored listings at
  the end of the request, and whether the handler's promise rejected.
* The repository is a list of documents.  Each of its operations can fail
  (reject); which ones do is given by `Faults`.
* Query-string parameters are absent or strings.
-/

namespace Airbnb

/-! ## Data model -/

/-- Stored image of a listing: `{ url, filename }`. -/
structure Image where
  url : String
  filename : String
deriving DecidableEq, Repr

/-- Listing document, with the fields the handlers read or write.  The relations
that `populate` expands for display (owner, reviews) and the geometry are not
represented. -/
structure Listing where
  id : String
  title : String
  description : String
  location : String
  country : String
  price : ℚ
  category : String
  image : Option Image
deriving DecidableEq, Repr

/-- Stored listings. -/
abbrev Store := List Listing

/-- Criteria object handed to `Listing.find`: `{}`, `{ category }` or `{ country }`. -/
structure Criteria where
  category : Option String := none
  country : Option String := none
deriving DecidableEq, Repr

/-- Image object of a submitted listing; `none` is an absent or null member. -/
structure BodyImage where
  url : Option String
  filename : Option String
deriving DecidableEq, Repr

/-- Submitted `req.body.listing`; `none` is an absent member. -/
structure BodyListing where
  title : Option String
  description : Option String
  location : Option String
  country : Option String
  price : Option ℚ
  category : Option String
  image : Option BodyImage
deriving DecidableEq, Repr

/-- Object handed to `Listing.findByIdAndUpdate`: the spread of the submitted
listing with its `image` member replaced. -/
structure UpdateData where
  title : Option String
  description : Option String
  location : Option String
  country : Option String
  price : Option ℚ
  category : Option String
  image : Option Image
deriving DecidableEq, Repr

/-- Uploaded file `req.file`: `{ path, filename }`. -/
structure Upload where
  path : String
  filename : String
deriving DecidableEq, Repr

/-- Parsed query string `req.query`. -/
structure Query where
  category : Option String := none
  query : Option String := none
  country : Option String := none
deriving DecidableEq, Repr

/-- Request as the handlers read it: `req.query`, `req.params.id`,
`req.body.listing` and `req.file`. -/
structure Request where
  query : Query := {}
  id : String := ""
  listing : Option BodyListing := none
  file : Option Upload := none
deriving DecidableEq, Repr

/-- Value passed to a view. -/
inductive Local where
  | listings (ls : List Listing)
  | listing (l : Option Listing)
  | text (s : Option String)
  | flag (b : Bool)
deriving DecidableEq, Repr

/-- One observable call made by a handler. -/
inductive Effect where
  | find (c : Criteria)
  | findById (id : String)
  | findByIdAndUpdate (id : String) (d : UpdateData)
  | save (l : Listing)
  | flash (severity : String) (message : String)
  | redirect (url : String)
  | status (code : Nat)
  | render (view : String) (locals : List (String × Local))
  | send (body : String)
  | logError
deriving DecidableEq, Repr

/-- Whether the call is `Listing.find`. -/
def Effect.isFind : Effect → Bool
  | .find _ => true
  | _ => false

/-- Whether the call is on the repository. -/
def Effect.isRepo : Effect → Bool
  | .find _ => true
  | .findById _ => true
  | .findByIdAndUpdate _ _ => true
  | .save _ => true
  | _ => false

/-- Whether the call is `res.render`. -/
def Effect.isRender : Effect → Bool
  | .render _ _ => true
  | _ => false

/-- Whether the call is `res.redirect`. -/
def Effect.isRedirect : Effect → Bool
  | .redirect _ => true
  | _ => false

/-- Whether the call ends the response: `res.redirect`, `res.render` or
`res.send`. -/
def Effect.isResponse : Effect → Bool
  | .redirect _ => true
  | .render _ _ => true
  | .send _ => true
  | _ => false

/-- Result of running a handler. -/
structure Outcome where
  trace : List Effect
  store : Store
  threw : Bool
deriving DecidableEq, Repr

/-- Which repository operations reject during the request. -/
structure Faults where
  find : Bool := false
  findById : Bool := false
  findByIdAndUpdate : Bool := false
  save : Bool := false
deriving DecidableEq, Repr

/-! ## Repository -/

/-- A document matches a criteria object when every member present equals the
document's field. -/
def Criteria.isMatch (c : Criteria) (l : Listing) : Bool :=
  (match c.category with
    | none => true
    | some v => l.category == v) &&
  (match c.country with
    | none => true
    | some v => l.country == v)

/-- The repository call `Listing.find(criteria)`. -/
def Repo.find (f : Faults) (st : Store) (c : Criteria) : Option (List Listing) :=
  if f.find then none else some (st.filter c.isMatch)

/-- Document with the given id, if any. -/
def Store.lookup (st : Store) (id : String) : Option Listing :=
  st.find? (fun l => l.id == id)

/-- The repository call `Listing.findById(id)`: `none` is a rejection,
`some none` the value null. -/
def Repo.findById (f : Faults) (st : Store) (id : String) : Option (Option Listing) :=
  if f.findById then none else some (st.lookup id)

/-- Field-wise update of a document: a member present in the data replaces the
field, an absent one leaves it. -/
def UpdateData.apply (d : UpdateData) (l : Listing) : Listing :=
  { id := l.id
    title := d.title.getD l.title
    description := d.description.getD l.description
    location := d.location.getD l.location
    country := d.country.getD l.country
    price := d.price.getD l.price
    category := d.category.getD l.category
    image := match d.image with
      | some i => some i
      | none => l.image }

/-- Replace the stored document carrying the id of `l` by `l`. -/
def Store.put (st : Store) (l : Listing) : Store :=
  st.map (fun x => if x.id == l.id then l else x)

/-- The repository call `Listing.findByIdAndUpdate(id, data, { new: true,
runValidators: true })`: `none` is a rejection; otherwise the updated document
(null when no document has the id) and the stored listings afterwards. -/
def Repo.findByIdAndUpdate (f : Faults) (st : Store) (id : String) (d : UpdateData) :
    Option (Option Listing × Store) :=
  if f.findByIdAndUpdate then none
  else match st.lookup id with
    | none => some (none, st)
    | some l => some (some (d.apply l), st.put (d.apply l))

/-- The call `listing.save()`: `none` is a rejection, otherwise the stored
listings afterwards. -/
def Repo.save (f : Faults) (st : Store) (l : Listing) : Option Store :=
  if f.save then none else some (st.put l)

/-! ## Handlers (`controllers/listings.js`) -/

/-- JavaScript truthiness of a query-string or body member that is absent or a
string. -/
def truthy (v : Option String) : Bool :=
  match v with
  | none => false
  | some s => s != ""

/-- The expression `v || d` for a member that is absent or a string. -/
def orElse (v : Option String) (d : String) : String :=
  match v with
  | none => d
  | some s => if s != "" then s else d

/-- The call `xs.includes(v)` for a member that is absent or a string. -/
def includes (xs : List String) (v : Option String) : Bool :=
  match v with
  | none => false
  | some s => xs.contains s

/-- The list `validCategories` of `index`. -/
def index.validCategories : List String :=
  [ "trending",
    "rooms",
    "iconic-cities",
    "mountains",
    "castles",
    "amazing-pools",
    "farms",
    "camping",
    "arctic",
    "domes",
    "boats" ]

/-- The handler `index`. -/
def index (f : Faults) (st : Store) (req : Request) : Outcome :=
  let category := req.query.category
  let noListingsFound := false
  let renderIndex (pre : List Effect) (allListings : List Listing) : Outcome :=
    { trace := pre ++ [.render "listings/index"
        [ ("allListings", .listings allListings),
          ("currentCategory", .text (some (orElse category "all"))),
          ("noListingsFound", .flag noListingsFound) ]]
      store := st, threw := false }
  if truthy category && category != some "all" then
    if includes index.validCategories category then
      match Repo.find f st { category := category } with
      | none => { trace := [.find { category := category }], store := st, threw := true }
      | some allListings =>
        if allListings.length == 0 then
          { trace := [.find { category := category }, .render "listings/nolisting" []],
            store := st, threw := false }
        else renderIndex [.find { category := category }] allListings
    else
      { trace := [.flash "error" "Invalid category!", .redirect "/listings"],
        store := st, threw := false }
  else
    match Repo.find f st {} with
    | none => { trace := [.find {}], store := st, threw := true }
    | some allListings => renderIndex [.find {}] allListings

/-- The handler `showListing`.  The branch for a missing listing has no
`return`: control falls through to the render. -/
def showListing (f : Faults) (st : Store) (req : Request) : Outcome :=
  let id := req.id
  match Repo.findById f st id with
  | none => { trace := [.findById id], store := st, threw := true }
  | some listing =>
    let notFound : List Effect :=
      if listing.isNone then
        [.flash "error" "Listing you requested for does not exist!", .redirect "/listings"]
      else []
    { trace := [.findById id] ++ notFound ++
        [.render "listings/show" [("listing", .listing listing)]]
      store := st, threw := false }

/-- The list `validCategories` of `searchByCategory`. -/
def searchByCategory.validCategories : List String :=
  [ "trending",
    "rooms",
    "iconic-cities",
    "mountains",
    "castles",
    "amazing-pools",
    "farms",
    "camping",
    "arctic",
    "domes",
    "boats" ]

/-- The handler `searchByCategory`. -/
def searchByCategory (f : Faults) (st : Store) (req : Request) : Outcome :=
  let category := req.query.category
  if !includes searchByCategory.validCategories category then
    { trace := [.status 400, .send "Invalid category"], store := st, threw := false }
  else
    match Repo.find f st { category := category } with
    | none =>
      { trace := [.find { category := category }, .logError, .status 500, .send "Server Error"],
        store := st, threw := false }
    | some listings =>
      if listings.length == 0 then
        { trace := [.find { category := category }, .status 404,
            .send "No listings found for this category"],
          store := st, threw := false }
      else
        { trace := [.find { category := category },
            .render "listings/index"
              [("listings", .listings listings), ("currentCategory", .text category)]],
          store := st, threw := false }

/-- The handler `searchListings`. -/
def searchListings (f : Faults) (st : Store) (req : Request) : Outcome :=
  let query := req.query.query
  let country := req.query.country
  if !truthy query && !truthy country then
    { trace := [.flash "error" "Please enter a search query or select a country.",
        .redirect "/listings"],
      store := st, threw := false }
  else
    let searchCriteria : Criteria := if truthy query then { country := query } else {}
    match Repo.find f st searchCriteria with
    | none =>
      { trace := [.find searchCriteria, .logError, .status 500, .send "Server Error"],
        store := st, threw := false }
    | some listings =>
      if listings.length == 0 then
        { trace := [.find searchCriteria, .status 404,
            .render "listings/noListing" [("query", .text query), ("country", .text country)]],
          store := st, threw := false }
      else
        { trace := [.find searchCriteria,
            .render "listings/searchResults"
              [("listings", .listings listings), ("query", .text query),
               ("country", .text country)]],
          store := st, threw := false }

/-- The spread `{ ...req.body.listing }` with its `image` member set to `image`. -/
def BodyListing.withImage (b : BodyListing) (image : Option Image) : UpdateData :=
  { title := b.title, description := b.description, location := b.location,
    country := b.country, price := b.price, category := b.category, image := image }

/-- The `try` block of `updateListing`, entered after the calls `pre` with the
update data built. -/
def updateListing.persist (f : Faults) (st : Store) (req : Request) (pre : List Effect)
    (updatedData : UpdateData) : Outcome :=
  let id := req.id
  let caught (tr : List Effect) (st1 : Store) : Outcome :=
    { trace := tr ++ [.logError, .status 500, .send "Something went wrong"],
      store := st1, threw := false }
  let done (tr : List Effect) (st1 : Store) : Outcome :=
    { trace := tr ++ [.flash "success" " Listing Updated!", .redirect ("/listings/" ++ id)],
      store := st1, threw := false }
  let tr1 := pre ++ [.findByIdAndUpdate id updatedData]
  match Repo.findByIdAndUpdate f st id updatedData with
  | none => caught tr1 st
  | some (listing, st1) =>
    match req.file with
    | none => done tr1 st1
    | some file =>
      match listing with
      | none => caught tr1 st1
      | some l =>
        let l1 : Listing := { l with image := some { url := file.path, filename := file.filename } }
        match Repo.save f st1 l1 with
        | none => caught (tr1 ++ [.save l1]) st1
        | some st2 => done (tr1 ++ [.save l1]) st2

/-- The test `req.body.listing.image && req.body.listing.image.url`. -/
def BodyListing.hasImageUrl (b : BodyListing) : Bool :=
  match b.image with
  | none => false
  | some img => truthy img.url

/-- The object `{ filename: image.filename || "listingimage", url: image.url }`
built from the submitted image. -/
def BodyImage.toImage (img : BodyImage) : Image :=
  { filename := orElse img.filename "listingimage", url := img.url.getD "" }

/-- The handler `updateListing`.  Reading a member of an absent
`req.body.listing` or of a null `currentListing` throws outside the `try`
block, as does a rejected `Listing.findById`. -/
def updateListing (f : Faults) (st : Store) (req : Request) : Outcome :=
  let id := req.id
  match req.listing with
  | none => { trace := [], store := st, threw := true }
  | some body =>
    if body.hasImageUrl then
      updateListing.persist f st req [] (body.withImage (body.image.map BodyImage.toImage))
    else
      match Repo.findById f st id with
      | none => { trace := [.findById id], store := st, threw := true }
      | some none => { trace := [.findById id], store := st, threw := true }
      | some (some currentListing) =>
        updateListing.persist f st req [.findById id] (body.withImage currentListing.image)

/-! ## Validation schemas (`schema.js`) -/

/-- Submitted value of a payload member: `undef` is an absent member,
`composite` an array or object where a scalar is expected. -/
inductive JVal where
  | undef
  | null
  | bool (b : Bool)
  | num (q : ℚ)
  | str (s : String)
  | composite
deriving DecidableEq, Repr

/-- Rule built by `Joi.string()`: `required` by `.required()`; `allowed` holds the
values of `.valid(...)` or `.allow(...)`; `only` is set by `.valid(...)`. -/
structure StringRule where
  required : Bool := false
  only : Bool := false
  allowed : List JVal := []

/-- Whether a string rule accepts a value: an absent member passes unless
required, an allowed value passes, with `only` nothing else does, and otherwise
the value has to be a non-empty string. -/
def StringRule.accepts (r : StringRule) (v : JVal) : Bool :=
  match v with
  | .undef => !r.required
  | _ =>
    if r.allowed.contains v then true
    else if r.only then false
    else match v with
      | .str s => s != ""
      | _ => false

/-- Rule built by `Joi.number()` with `.required()`, `.min(a)` and `.max(b)`. -/
structure NumberRule where
  required : Bool := false
  min : Option ℚ := none
  max : Option ℚ := none

/-- The tests `.min(a)` and `.max(b)` on a number, after the validator's test
that the number is within the safe integer range. -/
def NumberRule.inRange (r : NumberRule) (q : ℚ) : Bool :=
  decide (-(2 ^ 53 - 1 : ℚ) ≤ q) && decide (q ≤ (2 ^ 53 - 1 : ℚ)) &&
  (match r.min with
    | none => true
    | some a => decide (a ≤ q)) &&
  (match r.max with
    | none => true
    | some b => decide (q ≤ b))

/-- The number a value stands for under a number rule: a number stands for
itself and a string for what the validator's string-to-number conversion
`coerce` gives for it. -/
def JVal.toNumber (coerce : String → Option ℚ) (v : JVal) : Option ℚ :=
  match v with
  | .num q => some q
  | .str s => coerce s
  | _ => none

/-- Whether a number rule accepts a value. -/
def NumberRule.accepts (coerce : String → Option ℚ) (r : NumberRule) (v : JVal) : Bool :=
  match v with
  | .undef => !r.required
  | _ =>
    match v.toNumber coerce with
    | some q => r.inRange q
    | none => false

/-- The rule `listing.category` of `listingSchema`. -/
def listingSchema.category : StringRule :=
  { required := true
    only := true
    allowed :=
      [ .str "trending",
        .str "rooms",
        .str "iconic-cities",
        .str "mountains",
        .str "castles",
        .str "amazing-pools",
        .str "farms",
        .str "camping",
        .str "arctic",
        .str "domes",
        .str "boats" ] }

/-- Submitted `listing.image`: absent, null, an object with the members
`filename` and `url`, or a value of another type. -/
inductive ImageVal where
  | undef
  | null
  | obj (filename : JVal) (url : JVal)
  | other
deriving DecidableEq, Repr

/-- Members of a submitted `listing` object. -/
structure ListingFields where
  title : JVal
  description : JVal
  location : JVal
  country : JVal
  price : JVal
  category : JVal
  image : ImageVal

/-- The rule `listing.image` of `listingSchema`. -/
def listingSchema.image (v : ImageVal) : Bool :=
  match v with
  | .undef => true
  | .null => true
  | .obj filename url =>
    StringRule.accepts { allowed := [.str "", .null] } filename &&
    StringRule.accepts { required := true, allowed := [.str "", .null] } url
  | .other => false

/-- The schema `listingSchema` on a payload whose `listing` member is absent
(`none`) or an object with the members of `ListingFields`. -/
def listingSchema (coerce : String → Option ℚ) (listing : Option ListingFields) : Bool :=
  match listing with
  | none => false
  | some l =>
    StringRule.accepts { required := true } l.title &&
    StringRule.accepts { required := true } l.description &&
    StringRule.accepts { required := true } l.location &&
    StringRule.accepts { required := true } l.country &&
    NumberRule.accepts coerce { required := true, min := some 0 } l.price &&
    listingSchema.category.accepts l.category &&
    listingSchema.image l.image

/-- The eleven category values as the specification lists them. -/
def specCategories : List String :=
  ["trending", "rooms", "iconic-cities", "mountains", "castles", "amazing-pools", "farms",
    "camping", "arctic", "domes", "boats"]

/-- The review rule as the specification words it: the rating is an integer
between 1 and 5 and the comment is a non-empty string. -/
def specReviewValid (rating comment : JVal) : Prop :=
  (∃ n : ℤ, rating = .num n ∧ 1 ≤ n ∧ n ≤ 5) ∧ (∃ s, comment = .str s ∧ s ≠ "")

/-- Members of a submitted `review` object. -/
structure ReviewFields where
  rating : JVal
  comment : JVal

/-- The schema `reviewSchema` on a payload whose `review` member is absent
(`none`) or an object with the members `rating` and `comment`. -/
def reviewSchema (coerce : String → Option ℚ) (review : Option ReviewFields) : Bool :=
  match review with
  | none => false
  | some r =>
    NumberRule.accepts coerce { required := true, min := some 1, max := some 5 } r.rating &&
    StringRule.accepts { required := true } r.comment

/-! ## Sample data -/

/-- A stored listing used in the worked instances. -/
def sampleListing : Listing :=
  { id := "a1", title := "Villa", description := "Sea view", location := "Rome",
    country := "Italy", price := 120, category := "rooms",
    image := some { url := "http://img/upload/a.png", filename := "a" } }

/-- A second stored listing used in the worked instances. -/
def otherListing : Listing :=
  { id := "b2", title := "Igloo", description := "Cold", location := "Kiruna",
    country := "Sweden", price := 80, category := "arctic", image := none }

/-- A submitted listing without an image member. -/
def sampleBody : BodyListing :=
  { title := some "Villa Roma", description := some "Sea view", location := some "Rome",
    country := some "Italy", price := some 150, category := some "rooms", image := none }

/-- A submitted listing whose image member carries a url and a filename. -/
def sampleBodyWithImage : BodyListing :=
  { sampleBody with image := some { url := some "http://img/upload/b.png", filename := some "b" } }

/-- An uploaded file. -/
def sampleUpload : Upload :=
  { path := "http://cdn/upload/c.png", filename := "c" }

/-! ## Repository lemmas -/

/-- The empty criteria match every document. -/
theorem isMatch_empty (l : Listing) : Criteria.isMatch {} l = true := rfl

/-- Filtering by the empty criteria keeps the whole collection. -/
theorem filter_isMatch_empty (st : Store) : st.filter (Criteria.isMatch {}) = st := by
  induction st with
  | nil => rfl
  | cons a t ih => simp [List.filter, isMatch_empty]

/-- Filtering by `{ category }` is filtering on the category field. -/
theorem filter_isMatch_category (st : Store) (c : String) :
    st.filter (Criteria.isMatch { category := some c }) = st.filter (fun l => l.category == c) := by
  have h : Criteria.isMatch { category := some c } = fun l => l.category == c := by
    funext l
    simp [Criteria.isMatch]
  rw [h]

/-- Filtering by `{ country }` is filtering on the country field. -/
theorem filter_isMatch_country (st : Store) (q : String) :
    st.filter (Criteria.isMatch { country := some q }) = st.filter (fun l => l.country == q) := by
  have h : Criteria.isMatch { country := some q } = fun l => l.country == q := by
    funext l
    simp [Criteria.isMatch]
  rw [h]

/-- Lookup on a non-empty collection tests the first document, then the rest. -/
theorem lookup_cons (a : Listing) (t : Store) (id : String) :
    Store.lookup (a :: t) id = if a.id == id then some a else Store.lookup t id := by
  unfold Store.lookup
  rw [List.find?_cons]
  cases (a.id == id) <;> rfl

/-- Replacement on a non-empty collection acts document by document. -/
theorem put_cons (a : Listing) (t : Store) (l : Listing) :
    Store.put (a :: t) l = (if a.id == l.id then l else a) :: Store.put t l := rfl

/-- A document found by id carries that id. -/
theorem lookup_id (st : Store) (id : String) (l : Listing) (h : st.lookup id = some l) :
    l.id = id := by
  have := List.find?_some h
  simpa using this

/-- After replacing an existing document, lookup by its id returns the replacement. -/
theorem lookup_put (st : Store) (id : String) (cur l : Listing)
    (hcur : st.lookup id = some cur) (hid : l.id = id) :
    (st.put l).lookup id = some l := by
  induction st with
  | nil => simp [Store.lookup] at hcur
  | cons a t ih =>
    rw [put_cons, lookup_cons]
    rw [lookup_cons] at hcur
    cases ha : (a.id == id)
    · rw [ha] at hcur
      simp only [hid, ha, Bool.false_eq_true, if_false] at hcur ⊢
      exact ih hcur
    · simp [hid, ha]

/-! ## The list/filter handler `index` -/

/-- C1: for a request whose category is a non-empty string other than "all" and
outside the eleven valid categories, `index` flashes the error "Invalid
category!", redirects to "/listings" and does nothing else: it renders no view
and makes no call on the repository, whatever the repository holds. -/
theorem index_invalid_category (f : Faults) (st : Store) (req : Request) (c : String)
    (hc : req.query.category = some c) (hne : c ≠ "") (hall : c ≠ "all")
    (hinv : c ∉ index.validCategories) :
    index f st req =
        { trace := [.flash "error" "Invalid category!", .redirect "/listings"],
          store := st, threw := false } ∧
      (∀ e ∈ (index f st req).trace, e.isRender = false ∧ e.isFind = false) := by
  have hrun : index f st req =
      { trace := [.flash "error" "Invalid category!", .redirect "/listings"],
        store := st, threw := false } := by
    simp [index, hc, truthy, includes, hne, hall, hinv]
  refine ⟨hrun, ?_⟩
  rw [hrun]
  intro e he
  simp only [List.mem_cons, List.mem_singleton, List.not_mem_nil, or_false] at he
  rcases he with rfl | rfl <;> exact ⟨rfl, rfl⟩

/-- Worked instance of C1: the category "villas". -/
theorem index_invalid_category_witness :
    index {} [sampleListing] { query := { category := some "villas" } } =
        { trace := [.flash "error" "Invalid category!", .redirect "/listings"],
          store := [sampleListing], threw := false } ∧
      (∀ e ∈ (index {} [sampleListing] { query := { category := some "villas" } }).trace,
        e.isRender = false ∧ e.isFind = false) :=
  index_invalid_category {} [sampleListing] { query := { category := some "villas" } } "villas"
    rfl (by decide) (by decide) (by decide)

/-- C2: for a request whose category is absent or "all", and whatever the
repository holds, `index` makes exactly one repository call, `Listing.find`
with the empty criteria, never redirects and never renders the "no listings"
view; when that call returns, it renders "listings/index" with `allListings`
the whole stored collection (empty or not) and `currentCategory` "all". -/
theorem index_all_unfiltered (f : Faults) (st : Store) (req : Request)
    (hcat : req.query.category = none ∨ req.query.category = some "all") :
    (index f st req).trace.filter Effect.isRepo = [.find {}] ∧
      (∀ e ∈ (index f st req).trace,
        e.isRedirect = false ∧ ∀ locals, e ≠ .render "listings/nolisting" locals) ∧
      (f.find = false →
        index f st req =
          { trace := [.find {}, .render "listings/index"
              [ ("allListings", .listings st),
                ("currentCategory", .text (some "all")),
                ("noListingsFound", .flag false) ]],
            store := st, threw := false }) := by
  have hbranch : (truthy req.query.category && req.query.category != some "all") = false := by
    rcases hcat with h | h <;> simp [h, truthy]
  have hor : orElse req.query.category "all" = "all" := by
    rcases hcat with h | h <;> simp [h, orElse]
  cases hf : f.find
  · have hrun : index f st req =
        { trace := [.find {}, .render "listings/index"
            [ ("allListings", .listings st),
              ("currentCategory", .text (some "all")),
              ("noListingsFound", .flag false) ]],
          store := st, threw := false } := by
      simp [index, hbranch, hor, Repo.find, hf, filter_isMatch_empty]
    refine ⟨?_, ?_, fun _ => hrun⟩
    · rw [hrun]; rfl
    · rw [hrun]
      intro e he
      simp only [List.mem_cons, List.mem_singleton, List.not_mem_nil, or_false] at he
      rcases he with rfl | rfl
      · exact ⟨rfl, fun _ h => by cases h⟩
      · refine ⟨rfl, fun _ h => ?_⟩
        injection h with h1 _
        exact absurd h1 (by decide)
  · have hrun : index f st req = { trace := [.find {}], store := st, threw := true } := by
      simp [index, hbranch, Repo.find, hf]
    refine ⟨?_, ?_, fun h => by cases h⟩
    · rw [hrun]; rfl
    · rw [hrun]
      intro e he
      simp only [List.mem_singleton] at he
      subst he
      exact ⟨rfl, fun _ h => by cases h⟩

/-- Worked instance of C2: the category "all" over two stored listings. -/
theorem index_all_unfiltered_witness :
    (index {} [sampleListing, otherListing]
        { query := { category := some "all" } }).trace.filter Effect.isRepo = [.find {}] ∧
      (∀ e ∈ (index {} [sampleListing, otherListing] { query := { category := some "all" } }).trace,
        e.isRedirect = false ∧ ∀ locals, e ≠ .render "listings/nolisting" locals) ∧
      index {} [sampleListing, otherListing] { query := { category := some "all" } } =
        { trace := [.find {}, .render "listings/index"
            [ ("allListings", .listings [sampleListing, otherListing]),
              ("currentCategory", .text (some "all")),
              ("noListingsFound", .flag false) ]],
          store := [sampleListing, otherListing], threw := false } :=
  have h := index_all_unfiltered {} [sampleListing, otherListing]
    { query := { category := some "all" } } (Or.inr rfl)
  ⟨h.1, h.2.1, h.2.2 rfl⟩

/-! ## The category search handler `searchByCategory` -/

/-- C7: `searchByCategory` has four outcomes.  With the category absent or
outside the eleven values it answers status 400 with the text "Invalid
category", without a redirect and without a repository call.  With the category
in the enumeration it calls `Listing.find` by that category: when the call
fails it answers status 500 with "Server Error"; when no listing matches it
answers status 404 with plain text, not a view; and only when some listing
matches does it render the index view with the matching listings and the
category. -/
theorem searchByCategory_outcomes (f : Faults) (st : Store) (req : Request) :
    ((req.query.category = none ∨
        ∃ c, req.query.category = some c ∧ c ∉ searchByCategory.validCategories) →
      searchByCategory f st req =
        { trace := [.status 400, .send "Invalid category"], store := st, threw := false }) ∧
    (∀ c, req.query.category = some c → c ∈ searchByCategory.validCategories →
      (f.find = true →
        searchByCategory f st req =
          { trace := [.find { category := some c }, .logError, .status 500,
              .send "Server Error"],
            store := st, threw := false }) ∧
      (f.find = false → st.filter (fun l => l.category == c) = [] →
        searchByCategory f st req =
          { trace := [.find { category := some c }, .status 404,
              .send "No listings found for this category"],
            store := st, threw := false }) ∧
      (f.find = false → st.filter (fun l => l.category == c) ≠ [] →
        searchByCategory f st req =
          { trace := [.find { category := some c },
              .render "listings/index"
                [ ("listings", .listings (st.filter (fun l => l.category == c))),
                  ("currentCategory", .text (some c)) ]],
            store := st, threw := false })) ∧
    ((∃ e ∈ (searchByCategory f st req).trace, e.isRender = true) →
      ∃ c, req.query.category = some c ∧ c ∈ searchByCategory.validCategories ∧
        f.find = false ∧ st.filter (fun l => l.category == c) ≠ []) := by
  have hinvalid : (req.query.category = none ∨
        ∃ c, req.query.category = some c ∧ c ∉ searchByCategory.validCategories) →
      searchByCategory f st req =
        { trace := [.status 400, .send "Invalid category"], store := st, threw := false } := by
    rintro (h | ⟨c, h, hc⟩)
    · simp [searchByCategory, h, includes]
    · simp [searchByCategory, h, includes, hc]
  have hfail : ∀ c, req.query.category = some c → c ∈ searchByCategory.validCategories →
      f.find = true →
        searchByCategory f st req =
          { trace := [.find { category := some c }, .logError, .status 500,
              .send "Server Error"],
            store := st, threw := false } := by
    intro c h hc hf
    simp [searchByCategory, h, includes, hc, Repo.find, hf]
  have hnone : ∀ c, req.query.category = some c → c ∈ searchByCategory.validCategories →
      f.find = false → st.filter (fun l => l.category == c) = [] →
        searchByCategory f st req =
          { trace := [.find { category := some c }, .status 404,
              .send "No listings found for this category"],
            store := st, threw := false } := by
    intro c h hc hf he
    simp [searchByCategory, h, includes, hc, Repo.find, hf, filter_isMatch_category, he]
  have hsome : ∀ c, req.query.category = some c → c ∈ searchByCategory.validCategories →
      f.find = false → st.filter (fun l => l.category == c) ≠ [] →
        searchByCategory f st req =
          { trace := [.find { category := some c },
              .render "listings/index"
                [ ("listings", .listings (st.filter (fun l => l.category == c))),
                  ("currentCategory", .text (some c)) ]],
            store := st, threw := false } := by
    intro c h hc hf he
    simp [searchByCategory, h, includes, hc, Repo.find, hf, filter_isMatch_category, he]
  refine ⟨hinvalid, fun c h hc => ⟨hfail c h hc, hnone c h hc, hsome c h hc⟩, ?_⟩
  rintro ⟨e, he, hr⟩
  cases hcat : req.query.category with
  | none =>
    rw [hinvalid (Or.inl hcat)] at he
    simp only [List.mem_cons, List.mem_singleton, List.not_mem_nil, or_false] at he
    rcases he with rfl | rfl <;> cases hr
  | some c =>
    by_cases hc : c ∈ searchByCategory.validCategories
    · cases hf : f.find
      · by_cases hl : st.filter (fun l => l.category == c) = []
        · rw [hnone c hcat hc hf hl] at he
          simp only [List.mem_cons, List.mem_singleton, List.not_mem_nil, or_false] at he
          rcases he with rfl | rfl | rfl <;> cases hr
        · exact ⟨c, rfl, hc, rfl, hl⟩
      · rw [hfail c hcat hc hf] at he
        simp only [List.mem_cons, List.mem_singleton, List.not_mem_nil, or_false] at he
        rcases he with rfl | rfl | rfl | rfl <;> cases hr
    · rw [hinvalid (Or.inr ⟨c, hcat, hc⟩)] at he
      simp only [List.mem_cons, List.mem_singleton, List.not_mem_nil, or_false] at he
      rcases he with rfl | rfl <;> cases hr

/-- Worked instances of C7, one for each of the four outcomes. -/
theorem searchByCategory_outcomes_witness :
    searchByCategory {} [sampleListing, otherListing] { query := { category := some "villas" } } =
        { trace := [.status 400, .send "Invalid category"],
          store := [sampleListing, otherListing], threw := false } ∧
      searchByCategory { find := true } [sampleListing, otherListing]
          { query := { category := some "rooms" } } =
        { trace := [.find { category := some "rooms" }, .logError, .status 500,
            .send "Server Error"],
          store := [sampleListing, otherListing], threw := false } ∧
      searchByCategory {} [sampleListing, otherListing] { query := { category := some "boats" } } =
        { trace := [.find { category := some "boats" }, .status 404,
            .send "No listings found for this category"],
          store := [sampleListing, otherListing], threw := false } ∧
      searchByCategory {} [sampleListing, otherListing] { query := { category := some "rooms" } } =
        { trace := [.find { category := some "rooms" },
            .render "listings/index"
              [("listings", .listings [sampleListing]), ("currentCategory", .text (some "rooms"))]],
          store := [sampleListing, otherListing], threw := false } :=
  ⟨(searchByCategory_outcomes {} [sampleListing, otherListing]
      { query := { category := some "villas" } }).1 (Or.inr ⟨"villas", rfl, by decide⟩),
    ((searchByCategory_outcomes { find := true } [sampleListing, otherListing]
      { query := { category := some "rooms" } }).2.1 "rooms" rfl (by decide)).1 rfl,
    ((searchByCategory_outcomes {} [sampleListing, otherListing]
      { query := { category := some "boats" } }).2.1 "boats" rfl (by decide)).2.1 rfl
        (by decide),
    ((searchByCategory_outcomes {} [sampleListing, otherListing]
      { query := { category := some "rooms" } }).2.1 "rooms" rfl (by decide)).2.2 rfl
        (by decide)⟩

/-! ## The search handler `searchListings` -/

/-- C6: for a request with a non-empty `query`, `searchListings` makes one
repository call, `Listing.find` with the criteria `{ country: query }`, whose
result is exactly the stored listings whose country equals the query.  When
the call returns no listing the handler answers status 404 rendering
"listings/noListing" with the query and country echoed; when it returns some,
the handler renders "listings/searchResults" with exactly those listings and
the echoed query and country. -/
theorem searchListings_by_country (f : Faults) (st : Store) (req : Request) (q : String)
    (hq : req.query.query = some q) (hne : q ≠ "") :
    (searchListings f st req).trace.filter Effect.isRepo = [.find { country := some q }] ∧
      (f.find = false →
        Repo.find f st { country := some q } = some (st.filter (fun l => l.country == q))) ∧
      (∀ l, l ∈ st.filter (fun l => l.country == q) ↔ l ∈ st ∧ l.country = q) ∧
      (f.find = false → st.filter (fun l => l.country == q) = [] →
        searchListings f st req =
          { trace := [.find { country := some q }, .status 404,
              .render "listings/noListing"
                [("query", .text (some q)), ("country", .text req.query.country)]],
            store := st, threw := false }) ∧
      (f.find = false → st.filter (fun l => l.country == q) ≠ [] →
        searchListings f st req =
          { trace := [.find { country := some q },
              .render "listings/searchResults"
                [ ("listings", .listings (st.filter (fun l => l.country == q))),
                  ("query", .text (some q)), ("country", .text req.query.country) ]],
            store := st, threw := false }) := by
  have hnone : f.find = false → st.filter (fun l => l.country == q) = [] →
      searchListings f st req =
        { trace := [.find { country := some q }, .status 404,
            .render "listings/noListing"
              [("query", .text (some q)), ("country", .text req.query.country)]],
          store := st, threw := false } := by
    intro hf he
    simp [searchListings, hq, truthy, hne, Repo.find, hf, filter_isMatch_country, he]
  have hsome : f.find = false → st.filter (fun l => l.country == q) ≠ [] →
      searchListings f st req =
        { trace := [.find { country := some q },
            .render "listings/searchResults"
              [ ("listings", .listings (st.filter (fun l => l.country == q))),
                ("query", .text (some q)), ("country", .text req.query.country) ]],
          store := st, threw := false } := by
    intro hf he
    simp [searchListings, hq, truthy, hne, Repo.find, hf, filter_isMatch_country, he]
  refine ⟨?_, ?_, ?_, hnone, hsome⟩
  · cases hf : f.find
    · by_cases he : st.filter (fun l => l.country == q) = []
      · rw [hnone hf he]; rfl
      · rw [hsome hf he]; rfl
    · have hrun : searchListings f st req =
          { trace := [.find { country := some q }, .logError, .status 500,
              .send "Server Error"],
            store := st, threw := false } := by
        simp [searchListings, hq, truthy, hne, Repo.find, hf]
      rw [hrun]; rfl
  · intro hf
    simp [Repo.find, hf, filter_isMatch_country]
  · intro l
    simp [List.mem_filter]

/-- Worked instances of C6: the query "Italy" with and without a match. -/
theorem searchListings_by_country_witness :
    searchListings {} [sampleListing, otherListing]
        { query := { query := some "Italy", country := some "" } } =
        { trace := [.find { country := some "Italy" },
            .render "listings/searchResults"
              [ ("listings", .listings [sampleListing]),
                ("query", .text (some "Italy")), ("country", .text (some "")) ]],
          store := [sampleListing, otherListing], threw := false } ∧
      searchListings {} [otherListing]
        { query := { query := some "Italy", country := some "" } } =
        { trace := [.find { country := some "Italy" }, .status 404,
            .render "listings/noListing"
              [("query", .text (some "Italy")), ("country", .text (some ""))]],
          store := [otherListing], threw := false } :=
  ⟨(searchListings_by_country {} [sampleListing, otherListing]
      { query := { query := some "Italy", country := some "" } } "Italy" rfl
        (by decide)).2.2.2.2 rfl (by decide),
    (searchListings_by_country {} [otherListing]
      { query := { query := some "Italy", country := some "" } } "Italy" rfl
        (by decide)).2.2.2.1 rfl (by decide)⟩

/-! ## The update handler `updateListing` -/

/-- An update leaves the id of the document alone. -/
theorem apply_id (d : UpdateData) (l : Listing) : (d.apply l).id = l.id := rfl

/-- Update data that carry the current image leave the image alone. -/
theorem apply_image_same (b : BodyListing) (l : Listing) :
    ((b.withImage l.image).apply l).image = l.image := by
  simp only [UpdateData.apply, BodyListing.withImage]
  cases l.image <;> rfl

/-- The `try` block without an upload, when the update succeeds. -/
theorem persist_without_file (f : Faults) (st : Store) (req : Request) (pre : List Effect)
    (d : UpdateData) (cur : Listing) (hcur : st.lookup req.id = some cur)
    (hfile : req.file = none) (hu : f.findByIdAndUpdate = false) :
    updateListing.persist f st req pre d =
      { trace := pre ++ [.findByIdAndUpdate req.id d] ++
          [.flash "success" " Listing Updated!", .redirect ("/listings/" ++ req.id)],
        store := st.put (d.apply cur), threw := false } := by
  simp [updateListing.persist, Repo.findByIdAndUpdate, hu, hcur, hfile]

/-- The `try` block with an upload, when the update and the save succeed. -/
theorem persist_with_file (f : Faults) (st : Store) (req : Request) (pre : List Effect)
    (d : UpdateData) (cur : Listing) (file : Upload) (hcur : st.lookup req.id = some cur)
    (hfile : req.file = some file) (hu : f.findByIdAndUpdate = false) (hs : f.save = false) :
    updateListing.persist f st req pre d =
      { trace := pre ++ [.findByIdAndUpdate req.id d] ++
          [.save { d.apply cur with
            image := some { url := file.path, filename := file.filename } }] ++
          [.flash "success" " Listing Updated!", .redirect ("/listings/" ++ req.id)],
        store := (st.put (d.apply cur)).put { d.apply cur with
          image := some { url := file.path, filename := file.filename } },
        threw := false } := by
  simp [updateListing.persist, Repo.findByIdAndUpdate, Repo.save, hu, hs, hcur, hfile]

/-- A rejected `findByIdAndUpdate` is caught: status 500 with the generic text. -/
theorem persist_update_failure (f : Faults) (st : Store) (req : Request) (pre : List Effect)
    (d : UpdateData) (hu : f.findByIdAndUpdate = true) :
    updateListing.persist f st req pre d =
      { trace := pre ++ [.findByIdAndUpdate req.id d] ++
          [.logError, .status 500, .send "Something went wrong"],
        store := st, threw := false } := by
  simp [updateListing.persist, Repo.findByIdAndUpdate, hu]

/-- A rejected `save` is caught: status 500 with the generic text. -/
theorem persist_save_failure (f : Faults) (st : Store) (req : Request) (pre : List Effect)
    (d : UpdateData) (cur : Listing) (file : Upload) (hcur : st.lookup req.id = some cur)
    (hfile : req.file = some file) (hu : f.findByIdAndUpdate = false) (hs : f.save = true) :
    updateListing.persist f st req pre d =
      { trace := pre ++ [.findByIdAndUpdate req.id d] ++
          [.save { d.apply cur with
            image := some { url := file.path, filename := file.filename } }] ++
          [.logError, .status 500, .send "Something went wrong"],
        store := st.put (d.apply cur), threw := false } := by
  simp [updateListing.persist, Repo.findByIdAndUpdate, Repo.save, hu, hs, hcur, hfile]

/-- C3: for an existing listing and an update request whose body has no image
object, or an image object without a non-empty url, and which has no uploaded
file, if the repository calls succeed then the image stored on the listing
after the update is the image stored before it, whatever the other submitted
fields are. -/
theorem updateListing_keeps_image (f : Faults) (st : Store) (req : Request)
    (body : BodyListing) (cur : Listing)
    (hbody : req.listing = some body)
    (hcur : st.lookup req.id = some cur)
    (himg : body.image = none ∨
      ∃ img, body.image = some img ∧ (img.url = none ∨ img.url = some ""))
    (hfile : req.file = none)
    (hlookup : f.findById = false) (hupdate : f.findByIdAndUpdate = false) :
    ((updateListing f st req).store.lookup req.id).map Listing.image = some cur.image ∧
      (updateListing f st req).threw = false := by
  have hno : body.hasImageUrl = false := by
    rcases himg with h | ⟨img, h, hu | hu⟩
    · simp [BodyListing.hasImageUrl, h]
    · simp [BodyListing.hasImageUrl, h, hu, truthy]
    · simp [BodyListing.hasImageUrl, h, hu, truthy]
  have hrun : updateListing f st req =
      updateListing.persist f st req [.findById req.id] (body.withImage cur.image) := by
    simp [updateListing, hbody, hno, Repo.findById, hlookup, hcur]
  rw [hrun, persist_without_file f st req _ _ cur hcur hfile hupdate]
  have hid : ((body.withImage cur.image).apply cur).id = req.id := by
    rw [apply_id]; exact lookup_id st req.id cur hcur
  refine ⟨?_, rfl⟩
  show (Store.lookup (st.put _) req.id).map Listing.image = _
  rw [lookup_put st req.id cur _ hcur hid]
  simp [apply_image_same]

/-- Worked instance of C3: an update without image member and without upload. -/
theorem updateListing_keeps_image_witness :
    ((updateListing {} [sampleListing, otherListing]
        { id := "a1", listing := some sampleBody }).store.lookup "a1").map Listing.image =
        some sampleListing.image ∧
      (updateListing {} [sampleListing, otherListing]
        { id := "a1", listing := some sampleBody }).threw = false :=
  updateListing_keeps_image {} [sampleListing, otherListing]
    { id := "a1", listing := some sampleBody } sampleBody sampleListing rfl (by decide)
    (Or.inl rfl) rfl rfl rfl

/-- C4: for an existing listing and an update request that carries an uploaded
file, if the repository calls succeed then the image stored on the listing at
the end of the request is `{url: file.path, filename: file.filename}` of the
upload, whether or not the body also supplies an image with a url and a
filename. -/
theorem updateListing_upload_wins (f : Faults) (st : Store) (req : Request)
    (body : BodyListing) (cur : Listing) (file : Upload)
    (hbody : req.listing = some body)
    (hcur : st.lookup req.id = some cur)
    (hfile : req.file = some file)
    (hlookup : f.findById = false) (hupdate : f.findByIdAndUpdate = false)
    (hsave : f.save = false) :
    ((updateListing f st req).store.lookup req.id).map Listing.image =
        some (some { url := file.path, filename := file.filename }) ∧
      (updateListing f st req).threw = false := by
  have hcurid : cur.id = req.id := lookup_id st req.id cur hcur
  have key : ∀ (pre : List Effect) (d : UpdateData),
      ((updateListing.persist f st req pre d).store.lookup req.id).map Listing.image =
          some (some { url := file.path, filename := file.filename }) ∧
        (updateListing.persist f st req pre d).threw = false := by
    intro pre d
    rw [persist_with_file f st req pre d cur file hcur hfile hupdate hsave]
    refine ⟨?_, rfl⟩
    show (Store.lookup (Store.put (st.put (d.apply cur)) _) req.id).map Listing.image = _
    have h1 : (st.put (d.apply cur)).lookup req.id = some (d.apply cur) :=
      lookup_put st req.id cur _ hcur (by rw [apply_id]; exact hcurid)
    rw [lookup_put (st.put (d.apply cur)) req.id (d.apply cur) _ h1 (by simpa using hcurid)]
    rfl
  by_cases himg : body.hasImageUrl = true
  · have hrun : updateListing f st req =
        updateListing.persist f st req [] (body.withImage (body.image.map BodyImage.toImage)) := by
      simp [updateListing, hbody, himg]
    rw [hrun]; exact key _ _
  · have hno : body.hasImageUrl = false := by simpa using himg
    have hrun : updateListing f st req =
        updateListing.persist f st req [.findById req.id] (body.withImage cur.image) := by
      simp [updateListing, hbody, hno, Repo.findById, hlookup, hcur]
    rw [hrun]; exact key _ _

/-- Worked instance of C4: an upload together with a body image. -/
theorem updateListing_upload_wins_witness :
    ((updateListing {} [sampleListing, otherListing]
        { id := "a1", listing := some sampleBodyWithImage,
          file := some sampleUpload }).store.lookup "a1").map Listing.image =
        some (some { url := "http://cdn/upload/c.png", filename := "c" }) ∧
      (updateListing {} [sampleListing, otherListing]
        { id := "a1", listing := some sampleBodyWithImage,
          file := some sampleUpload }).threw = false :=
  updateListing_upload_wins {} [sampleListing, otherListing]
    { id := "a1", listing := some sampleBodyWithImage, file := some sampleUpload }
    sampleBodyWithImage sampleListing sampleUpload rfl (by decide) rfl rfl rfl rfl

/-- C5 fails on the code: a rejected lookup of the current listing is raised
outside the `try` block.  The handler's promise rejects after the single call
`Listing.findById`; no status 500 and no "Something went wrong" is sent. -/
theorem updateListing_lookup_failure_uncaught :
    updateListing { findById := true } [sampleListing]
        { id := "a1", listing := some sampleBody } =
      { trace := [.findById "a1"], store := [sampleListing], threw := true } ∧
    updateListing { findByIdAndUpdate := true } [sampleListing]
        { id := "a1", listing := some sampleBody } =
      { trace := [.findById "a1",
          .findByIdAndUpdate "a1" (sampleBody.withImage sampleListing.image),
          .logError, .status 500, .send "Something went wrong"],
        store := [sampleListing], threw := false } := by
  constructor <;> decide

/-! ## The show handler `showListing` -/

/-- C10 fails on the code: for an id that matches no stored listing,
`showListing` flashes the error and redirects to "/listings", and then, having
not returned, also calls `res.render` for "listings/show" with a null listing:
two responses are issued for the one request. -/
theorem showListing_missing_redirects_then_renders :
    showListing {} [sampleListing] { id := "zz" } =
      { trace := [.findById "zz",
          .flash "error" "Listing you requested for does not exist!",
          .redirect "/listings",
          .render "listings/show" [("listing", .listing none)]],
        store := [sampleListing], threw := false } ∧
    ((showListing {} [sampleListing] { id := "zz" }).trace.filter Effect.isResponse).length = 2 := by
  constructor <;> decide

/-! ## The category enumeration -/

/-- C8: the category enumeration is the same in the schema and in both
handlers: a string is accepted as `listing.category` by `listingSchema` exactly
when it is in `validCategories` of `index`, and exactly when it is in
`validCategories` of `searchByCategory`; each of the three lists is the eleven
values trending, rooms, iconic-cities, mountains, castles, amazing-pools, farms,
camping, arctic, domes, boats, which are pairwise distinct. -/
theorem category_enum_agrees (c : String) :
    (listingSchema.category.accepts (.str c) = true ↔ c ∈ index.validCategories) ∧
      (c ∈ index.validCategories ↔ c ∈ searchByCategory.validCategories) ∧
      index.validCategories = specCategories ∧
      searchByCategory.validCategories = specCategories ∧
      listingSchema.category.allowed = specCategories.map JVal.str ∧
      listingSchema.category.only = true ∧
      specCategories.Nodup ∧ specCategories.length = 11 := by
  refine ⟨?_, Iff.rfl, rfl, rfl, rfl, rfl, by decide, rfl⟩
  simp [StringRule.accepts, listingSchema.category, index.validCategories]

/-! ## The review schema -/

/-- C9, as stated, fails: the rating 2.5 with a non-empty comment is accepted
by `reviewSchema`, although 2.5 is not an integer. -/
theorem reviewSchema_accepts_fractional_rating :
    reviewSchema (fun _ => none) (some { rating := .num (5 / 2), comment := .str "Nice" }) = true ∧
      ¬ specReviewValid (.num (5 / 2)) (.str "Nice") := by
  constructor
  · simp [reviewSchema, NumberRule.accepts, JVal.toNumber, NumberRule.inRange,
      StringRule.accepts]
    norm_num
  · rintro ⟨⟨n, hn, -, -⟩, -⟩
    have h : (5 / 2 : ℚ) = n := by injection hn
    have h2 : ((5 : ℤ) : ℚ) = ((2 * n : ℤ) : ℚ) := by push_cast; linarith
    have h3 : (5 : ℤ) = 2 * n := by exact_mod_cast h2
    omega

/-- C9, amended: `reviewSchema` accepts a payload `{review: {rating, comment}}`
exactly when the rating is a number, or a string that the validator converts to
a number, whose value lies between 1 and 5 (integer or not), and the comment is
a non-empty string.  So a rating below 1 or above 5, a missing rating and a
missing or empty comment are all rejected. -/
theorem reviewSchema_accepts_iff (coerce : String → Option ℚ) (rating comment : JVal) :
    reviewSchema coerce (some { rating := rating, comment := comment }) = true ↔
      (∃ q, rating.toNumber coerce = some q ∧ 1 ≤ q ∧ q ≤ 5) ∧
        (∃ s, comment = .str s ∧ s ≠ "") := by
  have hcomment : StringRule.accepts { required := true } comment = true ↔
      ∃ s, comment = .str s ∧ s ≠ "" := by
    cases comment <;> simp [StringRule.accepts]
  have hrange : ∀ q : ℚ,
      NumberRule.inRange { required := true, min := some 1, max := some 5 } q = true ↔
        1 ≤ q ∧ q ≤ 5 := by
    intro q
    simp only [NumberRule.inRange, Bool.and_eq_true, decide_eq_true_eq]
    constructor
    · rintro ⟨⟨-, h1⟩, h5⟩
      exact ⟨h1, h5⟩
    · rintro ⟨h1, h5⟩
      refine ⟨⟨⟨?_, ?_⟩, h1⟩, h5⟩
      · linarith
      · have : (5 : ℚ) ≤ 2 ^ 53 - 1 := by norm_num
        linarith
  have hrating : NumberRule.accepts coerce { required := true, min := some 1, max := some 5 }
      rating = true ↔ ∃ q, rating.toNumber coerce = some q ∧ 1 ≤ q ∧ q ≤ 5 := by
    cases rating with
    | num q => simp [NumberRule.accepts, JVal.toNumber, hrange]
    | str s =>
      cases hs : coerce s with
      | none => simp [NumberRule.accepts, JVal.toNumber, hs]
      | some q => simp [NumberRule.accepts, JVal.toNumber, hs, hrange]
    | _ => simp [NumberRule.accepts, JVal.toNumber]
  simp only [reviewSchema, Bool.and_eq_true, hrating, hcomment]

/-- Worked instances of the amended C9: the ratings 3 and 4.5 are accepted,
the rating 6 and a missing rating are rejected. -/
theorem reviewSchema_accepts_iff_witness :
    reviewSchema (fun _ => none) (some { rating := .num 3, comment := .str "Nice" }) = true ∧
      reviewSchema (fun _ => none) (some { rating := .num (9 / 2), comment := .str "Nice" }) = true ∧
      reviewSchema (fun _ => none) (some { rating := .num 6, comment := .str "Nice" }) ≠ true ∧
      reviewSchema (fun _ => none) (some { rating := .undef, comment := .str "Nice" }) ≠ true :=
  ⟨(reviewSchema_accepts_iff (fun _ => none) (.num 3) (.str "Nice")).mpr
      ⟨⟨3, rfl, by norm_num, by norm_num⟩, "Nice", rfl, by decide⟩,
    (reviewSchema_accepts_iff (fun _ => none) (.num (9 / 2)) (.str "Nice")).mpr
      ⟨⟨9 / 2, rfl, by norm_num, by norm_num⟩, "Nice", rfl, by decide⟩,
    fun h => by
      obtain ⟨⟨q, hq, -, h5⟩, -⟩ :=
        (reviewSchema_accepts_iff (fun _ => none) (.num 6) (.str "Nice")).mp h
      have hq6 : (6 : ℚ) = q := by injection hq
      rw [← hq6] at h5
      norm_num at h5,
    fun h => by
      obtain ⟨⟨q, hq, -, -⟩, -⟩ :=
        (reviewSchema_accepts_iff (fun _ => none) .undef (.str "Nice")).mp h
      cases hq⟩

end Airbnb
